import Mathlib

/-!
Verification development for the `opc` storefront bootstrap (src/app.js).

The file shallowly embeds the Express application bootstrap of src/app.js:
the multer file-upload configuration (fileStorage, fileFilter), the session,
CSRF, flash, view-locals and user-attachment middleware, the route mounts,
the 404 catch-all, the terminal 500 error middleware, and the late-registered
GET /debug-session route.  The request pipeline is modelled as a list of
stages folded over an explicit flow state (normal / errored / responded),
mirroring Express dispatch: registration order is execution order, a normal
stage is skipped once a response was sent, an error forwarded with next(err)
skips every remaining normal stage and is caught by the first error-arity
middleware.  Pieces of the repository that are not part of src/app.js
(the error controller, the route modules) and third-party middleware
semantics (csurf, multer single-file handling) are modelled from the
specification and are marked as such in their doc comments.
-/

namespace Opc

/-- HTTP request methods distinguished by the pipeline. -/
inductive Method
  | GET
  | POST
  | PUT
  | DELETE
  | HEAD
  | OPTIONS
deriving DecidableEq, Repr

/-- Reference to a user stored in the session (req.session.user), carrying
the id that the user-attachment middleware looks up (src/app.js line 109). -/
structure UserRef where
  _id : String
deriving DecidableEq, Repr

/-- A user record as returned by the user store (models/user, external to
this core); the pipeline only reads it by id. -/
structure User where
  _id : String
deriving DecidableEq, Repr

/-- A session record: the express-session object as this app uses it.
isLoggedIn is an optional boolean (absent on fresh sessions), user is an
optional reference, csrfSecret is the session-bound secret the csurf
middleware validates tokens against, and data holds any further session
contents (relevant to the /debug-session route, which sends the whole
session). -/
structure Session where
  isLoggedIn : Option Bool
  user : Option UserRef
  csrfSecret : String
  data : List (String × String)
deriving DecidableEq, Repr

/-- An incoming multipart file before multer processes it: original
filename and MIME type. -/
structure RawFile where
  originalname : String
  mimetype : String
deriving DecidableEq, Repr

/-- A file accepted by multer: destination directory, generated filename,
and the original metadata. -/
structure StoredFile where
  destination : String
  filename : String
  originalname : String
  mimetype : String
deriving DecidableEq, Repr

/-- An incoming HTTP request, as seen by the pipeline: method, path, the
session record resolved from the cookie (none for a first-time client),
the submitted CSRF token (body field _csrf), and the raw uploaded file
under field name image, if any. -/
structure Request where
  method : Method
  path : String
  incomingSession : Option Session
  bodyCsrf : Option String
  rawFile : Option RawFile
deriving DecidableEq, Repr

/-- A response the pipeline can produce: a rendered view (status, view
name, pageTitle, path local, isAuthenticated local), the raw session sent
by the debug route, or an opaque response produced by one of the external
route modules. -/
inductive Response
  | render (status : Nat) (view pageTitle routePath : String) (isAuthenticated : Bool)
  | sendSession (status : Nat) (s : Session)
  | fromRoute (body : String)
deriving DecidableEq, Repr

/-- Embeds fileFilter (src/app.js lines 44-54): the multer file filter
calls cb(null, true) when the MIME type is image/png, image/jpg or
image/jpeg, and cb(null, false) otherwise.  The result is the pair of
arguments handed to the callback: an optional error (always none, the
filter never signals an error) and the accept flag. -/
def fileFilter (mimetype : String) : Option String × Bool :=
  if mimetype = "image/png" ∨ mimetype = "image/jpg" ∨ mimetype = "image/jpeg" then
    (none, true)
  else
    (none, false)

/-- Embeds the regex replace in fileStorage.filename (src/app.js line 39):
new Date().toISOString().replace with the global colon pattern replaced by
a hyphen maps every colon character of the string to a hyphen. -/
def replaceColons (s : String) : String :=
  String.mk (s.data.map (fun c => if c = ':' then '-' else c))

/-- Embeds fileStorage.filename (src/app.js lines 36-41): the generated
name is the ISO timestamp with colons replaced by hyphens, a hyphen, and
the original filename. -/
def fileStorage_filename (nowISO : String) (f : RawFile) : String :=
  replaceColons nowISO ++ "-" ++ f.originalname

/-- Embeds fileStorage.destination (src/app.js lines 33-35): every
accepted file goes to the fixed images directory. -/
def fileStorage_destination : String := "images"

/-- Models the multer middleware configured with fileStorage and
fileFilter in single-file mode for field image (src/app.js line 76): a
request with no file proceeds untouched; a file rejected by the filter is
silently dropped (nothing written, req.file unset); an accepted file is
written under the generated name and attached as req.file.  Returns the
attached file and the list of files written to disk. -/
def multerSingle (nowISO : String) (raw : Option RawFile) :
    Option StoredFile × List StoredFile :=
  match raw with
  | none => (none, [])
  | some f =>
    if (fileFilter f.mimetype).2 then
      let stored : StoredFile :=
        { destination := fileStorage_destination
          filename := fileStorage_filename nowISO f
          originalname := f.originalname
          mimetype := f.mimetype }
      (some stored, [stored])
    else
      (none, [])

/-- Modelled from the spec: the csurf library (not part of this
repository) derives the per-session token from the session-bound secret
(spec section 4.3: a token derived from the session secret, exposed to the
rendering layer).  The derivation itself is opaque to the app; only
equality of derived tokens matters to the pipeline. -/
def csrfTokenFor (secret : String) : String :=
  "csrf-token-of-" ++ secret

/-- Modelled from the spec: csurf validates only state-changing requests;
reads (GET, HEAD, OPTIONS) are ignored (spec section 4.3: on
state-changing requests, conventionally POST/PUT/DELETE, validate the
submitted token). -/
def csrfIgnoresMethod : Method → Bool
  | .GET => true
  | .HEAD => true
  | .OPTIONS => true
  | _ => false

/-- State-changing methods in the sense of the CSRF contract. -/
def stateChanging : Method → Bool
  | .POST => true
  | .PUT => true
  | .DELETE => true
  | _ => false

/-- Modelled from the spec: a submitted token is valid when it matches the
token derived from the session-bound secret (spec section 4.3). -/
def csrfValid (s : Session) (submitted : Option String) : Bool :=
  decide (submitted = some (csrfTokenFor s.csrfSecret))

/-- A fresh session as express-session creates it: no login flag, no user,
a newly generated CSRF secret, no further data. -/
def freshSession (secret : String) : Session :=
  { isLoggedIn := none, user := none, csrfSecret := secret, data := [] }

/-- Models the JavaScript expression x || false on an optionally-present
boolean: undefined and false both collapse to false (src/app.js lines 99
and 135). -/
def jsOrFalse (b : Option Bool) : Bool :=
  b.getD false

/-- Embeds req.session?.isLoggedIn || false (src/app.js lines 99 and 135):
the authentication flag computed defensively from a possibly-absent
session. -/
def localsIsAuthValue (sess : Option Session) : Bool :=
  jsOrFalse (sess.bind Session.isLoggedIn)

/-- Models JavaScript String.prototype.startsWith, used for the /admin
mount-point test of Express routing. -/
def strStartsWith (s p : String) : Bool :=
  p.data.isPrefixOf s.data

/-- The stages registered on the Express app, one constructor per app.use
or route registration of src/app.js, in source order: helmet (line 70),
compression (71), morgan access logging (72), urlencoded body parsing
(74), multer upload handling (75-77), the two static mounts (78-79),
express-session (82-92), csurf (94), connect-flash (95), the view-locals
middleware (98-102), the user-attachment middleware (105-120), the three
route mounts (123-125), the 404 catch-all (128), the error-arity 500
middleware (131-137), and the GET /debug-session route (153-156). -/
inductive Stage
  | helmet
  | compression
  | accessLog
  | bodyParsing
  | multerUpload
  | staticPublic
  | staticImages
  | sessionMw
  | csrfMw
  | flashMw
  | localsMw
  | userMw
  | adminRouter
  | shopRouter
  | authRouter
  | notFound404
  | errorHandler
  | debugSessionRoute
deriving DecidableEq, Repr

/-- Per-request mutable context threaded through the pipeline: the request,
the attached session (req.session), the attached user (req.user), the
attached upload (req.file), the two view locals set by the locals
middleware, the files written to disk, and the trace of stages whose
handler body actually executed. -/
structure Ctx where
  req : Request
  session : Option Session
  user : Option User
  file : Option StoredFile
  localsIsAuthenticated : Option Bool
  localsCsrfToken : Option String
  filesWritten : List StoredFile
  trace : List Stage
deriving DecidableEq, Repr

/-- Outcome of running one middleware on a context: pass control on
(next()), forward an error (next(err)), or send a response. -/
inductive StepResult
  | next (c : Ctx)
  | fail (e : String) (c : Ctx)
  | send (r : Response) (c : Ctx)
deriving DecidableEq, Repr

/-- Flow state of a request through the stack: still being dispatched
normally, carrying a forwarded error, or already responded. -/
inductive Flow
  | normal (c : Ctx)
  | errored (e : String) (c : Ctx)
  | done (r : Response) (c : Ctx)
deriving DecidableEq, Repr

/-- The external world a request runs against: the user store lookup
(User.findById), the three route modules (none when no route of the module
matches the request, some body when a handler produced a response), the
current time rendered by toISOString, and the secret a newly created
session would receive. -/
structure World where
  findUser : String → Except String (Option User)
  adminRoutes : Request → Option String
  shopRoutes : Request → Option String
  authRoutes : Request → Option String
  nowISO : String
  freshSecret : String

/-- Records that a stage's handler body executed. -/
def mark (st : Stage) (c : Ctx) : Ctx :=
  { c with trace := c.trace ++ [st] }

/-- Embeds the multer stage (src/app.js lines 75-77): processes the raw
file of the request, attaching the accepted file and recording what was
written; always passes control on, whatever the filter decided. -/
def multerStage (nowISO : String) (c : Ctx) : StepResult :=
  let r := multerSingle nowISO c.req.rawFile
  .next { c with file := r.1, filesWritten := c.filesWritten ++ r.2 }

/-- Embeds the express-session stage (src/app.js lines 82-92): attaches
the session resolved from the cookie, or a fresh one. -/
def sessionMiddleware (freshSecret : String) (c : Ctx) : StepResult :=
  .next { c with session := some (c.req.incomingSession.getD (freshSession freshSecret)) }

/-- Modelled from the spec: the csurf stage (src/app.js line 94; the
library is not part of this repository).  Spec section 4.3: on every
request ensure a token is available, and on state-changing requests
validate the submitted token against the session-bound secret; mismatch or
absence rejects the request, which csurf does by forwarding an error down
the chain.  Without a session csurf is misconfigured and errors. -/
def csrfMiddleware (c : Ctx) : StepResult :=
  match c.session with
  | none => .fail "misconfigured csrf" c
  | some s =>
    if csrfIgnoresMethod c.req.method then
      .next c
    else if csrfValid s c.req.bodyCsrf then
      .next c
    else
      .fail "EBADCSRFTOKEN" c

/-- Embeds the view-locals middleware (src/app.js lines 98-102): sets
res.locals.isAuthenticated from req.session?.isLoggedIn || false, then
res.locals.csrfToken from req.csrfToken().  With no session the second
line throws (req.csrfToken is only attached by csurf, which needs a
session), after the first local was already set. -/
def localsMiddleware (c : Ctx) : StepResult :=
  match c.session with
  | none =>
    .fail "TypeError: req.csrfToken is not a function"
      { c with localsIsAuthenticated := some (localsIsAuthValue none) }
  | some s =>
    .next { c with
      localsIsAuthenticated := some (localsIsAuthValue (some s))
      localsCsrfToken := some (csrfTokenFor s.csrfSecret) }

/-- Embeds the user-attachment middleware (src/app.js lines 105-120): no
session.user passes through; a successful lookup attaches the found user;
a successful lookup finding nobody passes through anonymously; a failed
lookup forwards an error.  Reading req.session.user with no session at all
would throw. -/
def userMiddleware (findUser : String → Except String (Option User)) (c : Ctx) : StepResult :=
  match c.session with
  | none => .fail "TypeError: cannot read user of undefined" c
  | some s =>
    match s.user with
    | none => .next c
    | some ref =>
      match findUser ref._id with
      | .error e => .fail e c
      | .ok none => .next c
      | .ok (some u) => .next { c with user := some u }

/-- Modelled from the spec: errorController.get404 (controllers/error is
not under src): spec section 4.5 describes a catch-all for unmatched
routes rendering a dedicated not-found page (status 404, page title
indicating not-found); it ends the request rather than passing control
on. -/
def get404 (c : Ctx) : Response :=
  Response.render 404 "404" "Page Not Found" "/404" (c.localsIsAuthenticated.getD false)

/-- Embeds the terminal error middleware (src/app.js lines 131-137):
renders the 500 view with pageTitle Error!, path /500, and
isAuthenticated computed as req.session?.isLoggedIn || false, whatever the
error was. -/
def errorHandler500 (sess : Option Session) : Response :=
  Response.render 500 "500" "Error!" "/500" (localsIsAuthValue sess)

/-- Embeds the GET /debug-session handler (src/app.js lines 153-156):
res.send(req.session) returns the raw session contents with status 200. -/
def debugSessionHandler (sess : Session) : Response :=
  Response.sendSession 200 sess

/-- Runs one registered stage on a normally-flowing request.  Pass-through
stages (helmet, compression, access logging, body parsing, the static
mounts for paths considered here, flash attachment) only mark their
execution: their effects (headers, logs, req.body, req.flash) are outside
the model and no claim depends on them.  Router stages mark their
execution only when a route handler actually produced a response.  The
error-arity 500 middleware is skipped on the normal path (Express only
invokes it on a forwarded error). -/
def runStage (w : World) (st : Stage) (c : Ctx) : StepResult :=
  match st with
  | .helmet => .next (mark st c)
  | .compression => .next (mark st c)
  | .accessLog => .next (mark st c)
  | .bodyParsing => .next (mark st c)
  | .multerUpload => multerStage w.nowISO (mark st c)
  | .staticPublic => .next (mark st c)
  | .staticImages => .next (mark st c)
  | .sessionMw => sessionMiddleware w.freshSecret (mark st c)
  | .csrfMw => csrfMiddleware (mark st c)
  | .flashMw => .next (mark st c)
  | .localsMw => localsMiddleware (mark st c)
  | .userMw => userMiddleware w.findUser (mark st c)
  | .adminRouter =>
    if strStartsWith c.req.path "/admin" then
      match w.adminRoutes c.req with
      | some body => .send (Response.fromRoute body) (mark st c)
      | none => .next c
    else
      .next c
  | .shopRouter =>
    match w.shopRoutes c.req with
    | some body => .send (Response.fromRoute body) (mark st c)
    | none => .next c
  | .authRouter =>
    match w.authRoutes c.req with
    | some body => .send (Response.fromRoute body) (mark st c)
    | none => .next c
  | .notFound404 =>
    let c := mark st c
    .send (get404 c) c
  | .errorHandler => .next c
  | .debugSessionRoute =>
    if c.req.method = Method.GET ∧ c.req.path = "/debug-session" then
      let c := mark st c
      .send (debugSessionHandler (c.session.getD (freshSession w.freshSecret))) c
    else
      .next c

/-- Express dispatch for one stage: a sent response is final; a forwarded
error skips every remaining normal stage and is caught by the error-arity
middleware, which renders the 500 page; a normal flow runs the stage. -/
def step (w : World) (f : Flow) (st : Stage) : Flow :=
  match f with
  | .done r c => .done r c
  | .errored e c =>
    if st = Stage.errorHandler then
      let c := mark st c
      .done (errorHandler500 c.session) c
    else
      .errored e c
  | .normal c =>
    match runStage w st c with
    | .next c' => .normal c'
    | .fail e c' => .errored e c'
    | .send r c' => .done r c'

/-- The registration order of the first bootstrap variant (src/app.js
lines 70-156).  Note that the GET /debug-session route (line 153) is
registered after the 404 catch-all (line 128) and the error middleware
(line 131). -/
def appStack : List Stage :=
  [.helmet, .compression, .accessLog, .bodyParsing, .multerUpload,
   .staticPublic, .staticImages, .sessionMw, .csrfMw, .flashMw,
   .localsMw, .userMw, .adminRouter, .shopRouter, .authRouter,
   .notFound404, .errorHandler, .debugSessionRoute]

/-- The registration order of the second bootstrap variant (src/app.js
lines 218-301): same registrations in the same order. -/
def appStack2 : List Stage :=
  [.helmet, .compression, .accessLog, .bodyParsing, .multerUpload,
   .staticPublic, .staticImages, .sessionMw, .csrfMw, .flashMw,
   .localsMw, .userMw, .adminRouter, .shopRouter, .authRouter,
   .notFound404, .errorHandler, .debugSessionRoute]

/-- The stages registered before the three route mounts (src/app.js lines
70-120), used to state what holds when a request reaches the route
layer. -/
def stagesBeforeRoutes : List Stage :=
  [.helmet, .compression, .accessLog, .bodyParsing, .multerUpload,
   .staticPublic, .staticImages, .sessionMw, .csrfMw, .flashMw,
   .localsMw, .userMw]

/-- Fresh per-request context. -/
def initCtx (r : Request) : Ctx :=
  { req := r, session := none, user := none, file := none,
    localsIsAuthenticated := none, localsCsrfToken := none,
    filesWritten := [], trace := [] }

/-- Runs a request through the whole registered stack of the first
variant, in registration order. -/
def runApp (w : World) (r : Request) : Flow :=
  appStack.foldl (step w) (Flow.normal (initCtx r))

/-- Runs a request through the stages registered before the route mounts:
the flow state at the moment route dispatch begins. -/
def runPrefix (w : World) (r : Request) : Flow :=
  stagesBeforeRoutes.foldl (step w) (Flow.normal (initCtx r))

/-- The session that the session middleware installs for a request: the
one resolved from the cookie, or a fresh one. -/
def installedSession (w : World) (r : Request) : Session :=
  r.incomingSession.getD (freshSession w.freshSecret)

/-- The response of a finished flow, if one was sent. -/
def finalResponse : Flow → Option Response
  | .done r _ => some r
  | _ => none

/-- The trace of executed handlers of a flow. -/
def finalTrace : Flow → List Stage
  | .normal c => c.trace
  | .errored _ c => c.trace
  | .done _ c => c.trace

/-- HTTP status of a response; an opaque route response counts as 200. -/
def statusOf : Response → Nat
  | .render s _ _ _ _ => s
  | .sendSession s _ => s
  | .fromRoute _ => 200

/-- Client-error statuses (4xx). -/
def isClientError (n : Nat) : Bool :=
  decide (400 ≤ n ∧ n < 500)

/-- Observable bootstrap configuration of one entry variant, read off the
source: the registered stack, the session-store library, the session
options (src/app.js lines 82-92 against 230-240), the session-store
database name (line 23 against 237), whether the deprecated mongoose
connection options are passed (lines 140-143 against 288), and the
fallback listening port (line 146 against 291). -/
structure BootstrapConfig where
  stack : List Stage
  sessionStoreLib : String
  sessionSecret : String
  resave : Bool
  saveUninitialized : Bool
  cookieMaxAgeMs : Option Nat
  storeDbName : String
  useNewUrlOpt : Bool
  useUnifiedTopologyOpt : Bool
  defaultPort : Nat
deriving DecidableEq, Repr

/-- The first bootstrap variant (src/app.js lines 19-156). -/
def variant1 : BootstrapConfig :=
  { stack := appStack
    sessionStoreLib := "connect-mongodb-session"
    sessionSecret := "my secret"
    resave := false
    saveUninitialized := false
    cookieMaxAgeMs := some (1000 * 60 * 60 * 24)
    storeDbName := "shop"
    useNewUrlOpt := true
    useUnifiedTopologyOpt := true
    defaultPort := 3001 }

/-- The second bootstrap variant (src/app.js lines 175-301). -/
def variant2 : BootstrapConfig :=
  { stack := appStack2
    sessionStoreLib := "connect-mongo"
    sessionSecret := "my secret"
    resave := false
    saveUninitialized := false
    cookieMaxAgeMs := none
    storeDbName := "hop"
    useNewUrlOpt := false
    useUnifiedTopologyOpt := false
    defaultPort := 3000 }

/-! Helper lemmas on strings and filenames. -/

/-- The shape of a Date.prototype.toISOString result: 24 characters, with
colons exactly at positions 13 and 16 (YYYY-MM-DDTHH:MM:SS.mmmZ). -/
def isoShaped (s : String) : Prop :=
  s.data.length = 24 ∧ ∀ (i : Nat) (h : i < s.data.length),
    (s.data[i] = ':' ↔ (i = 13 ∨ i = 16))

instance (s : String) : Decidable (isoShaped s) := by
  unfold isoShaped
  infer_instance

lemma data_append (a b : String) : (a ++ b).data = a.data ++ b.data := rfl

lemma data_replaceColons (s : String) :
    (replaceColons s).data = s.data.map (fun c => if c = ':' then '-' else c) := rfl

lemma string_eq_of_data (s t : String) (h : s.data = t.data) : s = t := by
  cases s
  cases t
  simp only at h
  rw [h]

/-- Colon-to-hyphen replacement is injective on strings shaped like
toISOString output: the colons sit at fixed positions, so no information
is lost. -/
lemma replaceColons_inj (s t : String) (hs : isoShaped s) (ht : isoShaped t)
    (h : replaceColons s = replaceColons t) : s = t := by
  obtain ⟨hsl, hsc⟩ := hs
  obtain ⟨htl, htc⟩ := ht
  have hd : s.data.map (fun c => if c = ':' then '-' else c)
      = t.data.map (fun c => if c = ':' then '-' else c) := by
    rw [← data_replaceColons, ← data_replaceColons, h]
  have hlen : s.data.length = t.data.length := by rw [hsl, htl]
  apply string_eq_of_data
  apply List.ext_getElem hlen
  intro i h1 h2
  have hb1 : i < (s.data.map (fun c => if c = ':' then '-' else c)).length := by
    simpa using h1
  have hb2 : i < (t.data.map (fun c => if c = ':' then '-' else c)).length := by
    simpa using h2
  have hfi : (if s.data[i] = ':' then '-' else s.data[i])
      = (if t.data[i] = ':' then '-' else t.data[i]) := by
    have hmap := congrArg (fun l => l.getD i 'x') hd
    simp only [List.getD_eq_getElem _ _ hb1, List.getD_eq_getElem _ _ hb2] at hmap
    simpa [List.getElem_map] using hmap
  by_cases hc : s.data[i] = ':'
  · have hi : i = 13 ∨ i = 16 := (hsc i h1).1 hc
    have hct : t.data[i] = ':' := (htc i h2).2 hi
    rw [hc, hct]
  · by_cases hct : t.data[i] = ':'
    · have hi : i = 13 ∨ i = 16 := (htc i h2).1 hct
      exact absurd ((hsc i h1).2 hi) hc
    · rw [if_neg hc, if_neg hct] at hfi
      exact hfi

/-! Helper lemmas on the pipeline. -/

/-- The stages registered before the user-attachment middleware plus that
middleware itself make up the pre-route prefix. -/
def stagesThroughLocals : List Stage :=
  [.helmet, .compression, .accessLog, .bodyParsing, .multerUpload,
   .staticPublic, .staticImages, .sessionMw, .csrfMw, .flashMw, .localsMw]

lemma throughLocals_normal (w : World) (r : Request) (cL : Ctx)
    (h : stagesThroughLocals.foldl (step w) (Flow.normal (initCtx r)) = Flow.normal cL) :
    cL.session = some (installedSession w r) ∧
    cL.localsIsAuthenticated = some (jsOrFalse (installedSession w r).isLoggedIn) ∧
    cL.localsCsrfToken = some (csrfTokenFor (installedSession w r).csrfSecret) := by
  rcases hig : csrfIgnoresMethod r.method with _ | _ <;>
  rcases hv : csrfValid (r.incomingSession.getD (freshSession w.freshSecret)) r.bodyCsrf
    with _ | _ <;>
  simp [stagesThroughLocals, step, runStage, multerStage, sessionMiddleware,
    csrfMiddleware, localsMiddleware, mark, initCtx, localsIsAuthValue, hig, hv] at h <;>
  (rcases h with rfl; simp [installedSession])

lemma userMiddleware_next_preserves (find : String → Except String (Option User))
    (c c' : Ctx) (h : userMiddleware find c = StepResult.next c') :
    c'.session = c.session ∧ c'.localsIsAuthenticated = c.localsIsAuthenticated ∧
    c'.localsCsrfToken = c.localsCsrfToken := by
  unfold userMiddleware at h
  (repeat' split at h) <;>
  first
  | (injection h with h; rcases h with rfl; simp)
  | (cases h)

lemma userMiddleware_no_send (find : String → Except String (Option User))
    (c c' : Ctx) (r : Response) (h : userMiddleware find c = StepResult.send r c') : False := by
  unfold userMiddleware at h
  (repeat' split at h) <;> cases h

lemma jsOrFalse_eq_true (b : Option Bool) : jsOrFalse b = true ↔ b = some true := by
  rcases b with _ | b
  · simp [jsOrFalse]
  · rcases b <;> simp [jsOrFalse]

/-! Concrete fixtures used by the closed theorems below. -/

/-- A session with a logged-in user flag and some contents. -/
def dbgSession : Session :=
  { isLoggedIn := some true, user := none, csrfSecret := "sec", data := [("cart", "empty")] }

/-- A world where no route module matches anything and user lookups find
nobody. -/
def dbgWorld : World :=
  { findUser := fun _ => Except.ok none
    adminRoutes := fun _ => none
    shopRoutes := fun _ => none
    authRoutes := fun _ => none
    nowISO := "2026-01-01T00:00:00.000Z"
    freshSecret := "fresh" }

/-- A GET /debug-session request carrying dbgSession. -/
def dbgRequest : Request :=
  { method := .GET, path := "/debug-session", incomingSession := some dbgSession,
    bodyCsrf := none, rawFile := none }

/-- A world where the admin module would answer any admin request. -/
def c2World : World :=
  { dbgWorld with adminRoutes := fun _ => some "admin-handler-response" }

/-- A POST to an admin route carrying a wrong CSRF token. -/
def c2Request : Request :=
  { method := .POST, path := "/admin/add-product", incomingSession := some dbgSession,
    bodyCsrf := some "wrong-token", rawFile := none }

/-- A world where the shop module answers the root path. -/
def c4World : World :=
  { dbgWorld with shopRoutes := fun _ => some "shop-index" }

/-- A plain GET / request carrying dbgSession. -/
def c4Request : Request :=
  { method := .GET, path := "/", incomingSession := some dbgSession,
    bodyCsrf := none, rawFile := none }

/-! Claims. -/

/-- C1: src/app.js registers the GET /debug-session route (line 153) after
the catch-all 404 middleware (line 128), so a GET /debug-session request
is answered by the 404 page and never reaches the debug-session handler:
here, at a concrete logged-in session, the response is the 404 render, the
debug route is absent from the execution trace, the 404 catch-all is what
ran, and the stack indeed orders the catch-all before the route.  This
exhibits the code slip behind the claim that two such requests reach the
handler and receive the session contents. -/
theorem debug_session_unreachable :
    finalResponse (runApp dbgWorld dbgRequest) =
      some (Response.render 404 "404" "Page Not Found" "/404" true) ∧
    Stage.debugSessionRoute ∉ finalTrace (runApp dbgWorld dbgRequest) ∧
    Stage.notFound404 ∈ finalTrace (runApp dbgWorld dbgRequest) ∧
    appStack.indexOf Stage.notFound404 < appStack.indexOf Stage.debugSessionRoute :=
  ⟨rfl, by decide, by decide, by decide⟩

/-- C2 counterexample: a POST to an admin route with a mismatched CSRF
token is answered with status 500 — the terminal error middleware of
src/app.js line 131 renders every forwarded error as 500 — which is not a
client error, refuting the claim that the response is a client error
(while the admin handler indeed never executes). -/
theorem csrf_invalid_is_server_error_counterexample :
    stateChanging c2Request.method = true ∧
    csrfValid (installedSession c2World c2Request) c2Request.bodyCsrf = false ∧
    (finalResponse (runApp c2World c2Request)).map statusOf = some 500 ∧
    isClientError 500 = false ∧
    Stage.adminRouter ∉ finalTrace (runApp c2World c2Request) :=
  ⟨rfl, rfl, rfl, rfl, by decide⟩

/-- C2 (amended): for every state-changing request whose submitted CSRF
token is absent or mismatched, the CSRF middleware forwards an error
before route dispatch: no admin, shop or auth handler executes, the CSRF
stage is registered before the route mounts, and the response is the 500
error page rendered by the terminal error middleware — a server error,
not a client error. -/
theorem csrf_invalid_rejected_before_routes (w : World) (r : Request)
    (hm : stateChanging r.method = true)
    (hv : csrfValid (installedSession w r) r.bodyCsrf = false) :
    finalResponse (runApp w r) = some (errorHandler500 (some (installedSession w r))) ∧
    statusOf (errorHandler500 (some (installedSession w r))) = 500 ∧
    isClientError (statusOf (errorHandler500 (some (installedSession w r)))) = false ∧
    Stage.adminRouter ∉ finalTrace (runApp w r) ∧
    Stage.shopRouter ∉ finalTrace (runApp w r) ∧
    Stage.authRouter ∉ finalTrace (runApp w r) ∧
    appStack.indexOf Stage.csrfMw < appStack.indexOf Stage.adminRouter := by
  have key : finalResponse (runApp w r) = some (errorHandler500 (some (installedSession w r))) ∧
      Stage.adminRouter ∉ finalTrace (runApp w r) ∧
      Stage.shopRouter ∉ finalTrace (runApp w r) ∧
      Stage.authRouter ∉ finalTrace (runApp w r) := by
    simp only [installedSession] at hv
    cases hmeth : r.method <;> simp [stateChanging, hmeth] at hm <;>
      simp [runApp, appStack, step, runStage, multerStage, sessionMiddleware, csrfMiddleware,
        mark, initCtx, installedSession, hmeth, csrfIgnoresMethod, hv, finalResponse,
        finalTrace, statusOf, errorHandler500]
  exact ⟨key.1, rfl, rfl, key.2.1, key.2.2.1, key.2.2.2, by decide⟩

/-- C2 witness: the amended statement at the concrete bad-token POST. -/
theorem csrf_invalid_rejected_before_routes_witness :
    finalResponse (runApp c2World c2Request) =
      some (errorHandler500 (some (installedSession c2World c2Request))) ∧
    Stage.adminRouter ∉ finalTrace (runApp c2World c2Request) := by
  have h := csrf_invalid_rejected_before_routes c2World c2Request (by decide) (by decide)
  exact ⟨h.1, h.2.2.2.1⟩

/-- C3: the file filter accepts exactly the MIME types image/png,
image/jpg and image/jpeg; it never signals an error (the error slot of the
callback is always empty); a rejected file is silently excluded — nothing
is attached and nothing is written to disk; and the multer stage always
passes the request on, never short-circuiting it. -/
theorem file_filter_accept_iff_image :
    (∀ m, (fileFilter m).2 = true ↔ (m = "image/png" ∨ m = "image/jpg" ∨ m = "image/jpeg")) ∧
    (∀ m, (fileFilter m).1 = none) ∧
    (∀ now f, (fileFilter f.mimetype).2 = false → multerSingle now (some f) = (none, [])) ∧
    (∀ w c, ∃ c', runStage w Stage.multerUpload c = StepResult.next c') := by
  refine ⟨?_, ?_, ?_, ?_⟩
  · intro m
    unfold fileFilter
    split <;> simp_all
  · intro m
    unfold fileFilter
    split <;> simp
  · intro now f h
    unfold multerSingle
    simp [h]
  · intro w c
    exact ⟨_, rfl⟩

/-- C3 witness: a GIF upload is excluded without an error and nothing is
written. -/
theorem file_filter_accept_iff_image_witness :
    multerSingle "2026-01-01T00:00:00.000Z" (some ⟨"anim.gif", "image/gif"⟩) = (none, []) ∧
    (fileFilter "image/gif").1 = none := by
  refine ⟨?_, file_filter_accept_iff_image.2.1 "image/gif"⟩
  exact file_filter_accept_iff_image.2.2.1 "2026-01-01T00:00:00.000Z"
    ⟨"anim.gif", "image/gif"⟩ (by decide)

/-- C4 counterexample: the order claimed by the spec — user attachment
before the CSRF check and flash — is not the registered order of
src/app.js: the claimed chain is not a subsequence of the stack, and in a
concrete successful GET / run the executed trace has the CSRF stage (and
flash and locals) before the user-attachment stage. -/
theorem middleware_order_claim_counterexample :
    ¬ ([Stage.compression, Stage.accessLog, Stage.bodyParsing, Stage.multerUpload,
        Stage.sessionMw, Stage.userMw, Stage.csrfMw, Stage.flashMw,
        Stage.adminRouter, Stage.shopRouter, Stage.authRouter,
        Stage.notFound404, Stage.errorHandler].Sublist appStack) ∧
    finalTrace (runApp c4World c4Request) =
      [Stage.helmet, Stage.compression, Stage.accessLog, Stage.bodyParsing,
       Stage.multerUpload, Stage.staticPublic, Stage.staticImages, Stage.sessionMw,
       Stage.csrfMw, Stage.flashMw, Stage.localsMw, Stage.userMw, Stage.shopRouter] :=
  ⟨by decide, rfl⟩

/-- C4 (amended): the stages execute in the fixed registered order
compression, access logging, body/file parsing, session resolution, CSRF
check, flash availability, user attachment, route dispatch, error
handling — i.e. the CSRF check and flash come before user attachment —
and the pipeline executes exactly the registered stack in order. -/
theorem middleware_order_actual :
    ([Stage.compression, Stage.accessLog, Stage.bodyParsing, Stage.multerUpload,
      Stage.sessionMw, Stage.csrfMw, Stage.flashMw, Stage.userMw,
      Stage.adminRouter, Stage.shopRouter, Stage.authRouter,
      Stage.notFound404, Stage.errorHandler].Sublist appStack) ∧
    (∀ w r, runApp w r = appStack.foldl (step w) (Flow.normal (initCtx r))) :=
  ⟨by decide, fun _ _ => rfl⟩

/-- A world whose user store is down: every lookup fails. -/
def c5World : World :=
  { findUser := fun _ => Except.error "database down"
    adminRoutes := fun _ => none
    shopRoutes := fun _ => none
    authRoutes := fun _ => none
    nowISO := "2026-01-01T00:00:00.000Z"
    freshSecret := "fresh" }

/-- A session referencing user u1. -/
def c5Session : Session :=
  { isLoggedIn := some true, user := some ⟨"u1"⟩, csrfSecret := "sec", data := [] }

/-- A GET / request carrying c5Session. -/
def c5Request : Request :=
  { method := .GET, path := "/", incomingSession := some c5Session,
    bodyCsrf := none, rawFile := none }

/-- C5: the user-attachment middleware passes through unchanged when the
session has no user reference; attaches the found user on a successful
lookup; passes through as anonymous, raising nothing, when the lookup
succeeds but finds nobody; forwards the failure when the lookup itself
fails — and, through the full pipeline, such a forwarded failure is
answered by the terminal 500 error page. -/
theorem user_attachment_contract :
    (∀ find c s, c.session = some s → s.user = none →
      userMiddleware find c = StepResult.next c) ∧
    (∀ find c s ref u, c.session = some s → s.user = some ref →
      find ref._id = Except.ok (some u) →
      userMiddleware find c = StepResult.next { c with user := some u }) ∧
    (∀ find c s ref, c.session = some s → s.user = some ref →
      find ref._id = Except.ok none → userMiddleware find c = StepResult.next c) ∧
    (∀ find c s ref e, c.session = some s → s.user = some ref →
      find ref._id = Except.error e → userMiddleware find c = StepResult.fail e c) ∧
    (∀ w r ref e, r.method = Method.GET → (installedSession w r).user = some ref →
      w.findUser ref._id = Except.error e →
      finalResponse (runApp w r) = some (errorHandler500 (some (installedSession w r)))) := by
  refine ⟨?_, ?_, ?_, ?_, ?_⟩
  · intro find c s hs hu
    simp [userMiddleware, hs, hu]
  · intro find c s ref u hs hu hf
    simp [userMiddleware, hs, hu, hf]
  · intro find c s ref hs hu hf
    simp [userMiddleware, hs, hu, hf]
  · intro find c s ref e hs hu hf
    simp [userMiddleware, hs, hu, hf]
  · intro w r ref e hm hu hf
    simp only [installedSession] at hu ⊢
    simp [runApp, appStack, step, runStage, multerStage, sessionMiddleware, csrfMiddleware,
      localsMiddleware, userMiddleware, mark, initCtx, hm, csrfIgnoresMethod, hu, hf,
      finalResponse, errorHandler500]

/-- C5 witness: with the user store down, a GET / carrying a session that
references u1 is answered by the 500 error page. -/
theorem user_attachment_contract_witness :
    finalResponse (runApp c5World c5Request) =
      some (errorHandler500 (some (installedSession c5World c5Request))) :=
  user_attachment_contract.2.2.2.2 c5World c5Request ⟨"u1"⟩ "database down" rfl rfl rfl

/-- C6 counterexample: the stored filename is not the colon-replaced
timestamp directly concatenated with the original name — the code inserts
a hyphen separator between the two (src/app.js line 39). -/
theorem filename_separator_counterexample :
    fileStorage_filename "2026-01-01T10:20:30.400Z" ⟨"a.png", "image/png"⟩ ≠
      replaceColons "2026-01-01T10:20:30.400Z" ++ "a.png" ∧
    fileStorage_filename "2026-01-01T10:20:30.400Z" ⟨"a.png", "image/png"⟩ =
      "2026-01-01T10-20-30.400Z-a.png" :=
  ⟨by decide, rfl⟩

/-- C6 (amended): every accepted upload is stored in the fixed images
directory under the name formed of the ISO timestamp with every colon
replaced by a hyphen, a hyphen separator, and the original filename. -/
theorem stored_filename_scheme (now : String) (f : RawFile)
    (h : (fileFilter f.mimetype).2 = true) :
    multerSingle now (some f) =
      (some { destination := "images",
              filename := replaceColons now ++ "-" ++ f.originalname,
              originalname := f.originalname, mimetype := f.mimetype },
       [{ destination := "images",
          filename := replaceColons now ++ "-" ++ f.originalname,
          originalname := f.originalname, mimetype := f.mimetype }]) := by
  simp [multerSingle, h, fileStorage_filename, fileStorage_destination]

/-- C6 witness: the amended statement at a concrete PNG upload. -/
theorem stored_filename_scheme_witness :
    multerSingle "2026-01-01T10:20:30.400Z" (some ⟨"a.png", "image/png"⟩) =
      (some { destination := "images", filename := "2026-01-01T10-20-30.400Z-a.png",
              originalname := "a.png", mimetype := "image/png" },
       [{ destination := "images", filename := "2026-01-01T10-20-30.400Z-a.png",
          originalname := "a.png", mimetype := "image/png" }]) :=
  (stored_filename_scheme "2026-01-01T10:20:30.400Z" ⟨"a.png", "image/png"⟩
    (by decide)).trans (by decide)

/-- C7: the terminal error middleware is a total function of the
possibly-absent session: it always renders the 500 failure page, with the
authentication local false when the session is absent (or the flag absent
or false) and true exactly when a session with isLoggedIn true is present;
and on a forwarded error the dispatcher invokes exactly this handler. -/
theorem error_middleware_defensive :
    (∀ sess, statusOf (errorHandler500 sess) = 500) ∧
    (errorHandler500 none = Response.render 500 "500" "Error!" "/500" false) ∧
    (∀ s, errorHandler500 (some s) =
      Response.render 500 "500" "Error!" "/500" (jsOrFalse s.isLoggedIn)) ∧
    (∀ sess, localsIsAuthValue sess = true ↔ ∃ s, sess = some s ∧ s.isLoggedIn = some true) ∧
    (∀ w e c, step w (Flow.errored e c) Stage.errorHandler =
      Flow.done (errorHandler500 c.session) (mark Stage.errorHandler c)) := by
  refine ⟨fun sess => rfl, rfl, fun s => rfl, ?_, fun w e c => rfl⟩
  intro sess
  rcases sess with _ | s
  · simp [localsIsAuthValue, jsOrFalse]
  · simp [localsIsAuthValue, jsOrFalse_eq_true]

/-- C8 counterexample: two uploads within the same second (identical up to
the seconds field, differing only in milliseconds) with the same original
name do not collide: toISOString carries millisecond precision, so the
generated filenames differ. -/
theorem same_second_collision_counterexample :
    "2026-01-01T10:20:30.100Z".data.take 20 = "2026-01-01T10:20:30.900Z".data.take 20 ∧
    fileStorage_filename "2026-01-01T10:20:30.100Z" ⟨"a.png", "image/png"⟩ ≠
      fileStorage_filename "2026-01-01T10:20:30.900Z" ⟨"a.png", "image/png"⟩ :=
  ⟨by decide, by decide⟩

/-- C8 (amended): two uploads produce the same generated filename exactly
when they share the same original filename and the same toISOString
output, i.e. the same millisecond timestamp; beyond that equality there is
no collision avoidance. -/
theorem filename_collision_characterization (ts1 ts2 : String) (f1 f2 : RawFile)
    (h1 : isoShaped ts1) (h2 : isoShaped ts2) :
    fileStorage_filename ts1 f1 = fileStorage_filename ts2 f2 ↔
      (ts1 = ts2 ∧ f1.originalname = f2.originalname) := by
  constructor
  · intro h
    have hd : ((replaceColons ts1).data ++ ['-']) ++ f1.originalname.data
        = ((replaceColons ts2).data ++ ['-']) ++ f2.originalname.data := by
      have := congrArg String.data h
      simpa [fileStorage_filename, data_append, List.append_assoc] using this
    have hlen : ((replaceColons ts1).data ++ ['-']).length
        = ((replaceColons ts2).data ++ ['-']).length := by
      simp [data_replaceColons, h1.1, h2.1]
    obtain ⟨hpre, hsuf⟩ := List.append_inj hd hlen
    have hts : ts1 = ts2 := by
      apply replaceColons_inj ts1 ts2 h1 h2
      apply string_eq_of_data
      have := List.append_inj hpre (by simp [data_replaceColons, h1.1, h2.1])
      exact this.1
    exact ⟨hts, string_eq_of_data _ _ hsuf⟩
  · rintro ⟨rfl, ho⟩
    simp [fileStorage_filename, ho]

/-- C8 witness: at a fixed millisecond timestamp the characterization
separates distinct original names. -/
theorem filename_collision_characterization_witness :
    fileStorage_filename "2026-01-01T10:20:30.100Z" ⟨"a.png", "image/png"⟩ ≠
      fileStorage_filename "2026-01-01T10:20:30.100Z" ⟨"b.png", "image/png"⟩ := by
  intro h
  have hc := (filename_collision_characterization "2026-01-01T10:20:30.100Z"
    "2026-01-01T10:20:30.100Z" ⟨"a.png", "image/png"⟩ ⟨"b.png", "image/png"⟩
    (by decide) (by decide)).mp h
  exact absurd hc.2 (by decide)

/-- C9 counterexample: the two bootstrap variants are not identical in
session cookie configuration or listening port — variant 1 sets a 24-hour
cookie maxAge and falls back to port 3001 while variant 2 leaves the
cookie session-only and falls back to port 3000 — refuting the claim
that every aspect beyond store library and connection options matches. -/
theorem bootstrap_cookie_port_counterexample :
    variant1.cookieMaxAgeMs = some 86400000 ∧
    variant2.cookieMaxAgeMs = none ∧
    variant1.cookieMaxAgeMs ≠ variant2.cookieMaxAgeMs ∧
    variant1.defaultPort ≠ variant2.defaultPort := by
  decide

/-- C9 (amended): the two bootstrap variants register the same middleware
stack in the same order with the same session secret, resave and
saveUninitialized settings, and differ in the session-store library, the
store database name, the deprecated mongoose connection options, the
session cookie maxAge (24 hours against unset), and the fallback listening
port (3001 against 3000). -/
theorem bootstrap_variants_comparison :
    variant1.stack = variant2.stack ∧
    appStack2 = appStack ∧
    variant1.sessionSecret = variant2.sessionSecret ∧
    variant1.resave = variant2.resave ∧
    variant1.saveUninitialized = variant2.saveUninitialized ∧
    variant1.sessionStoreLib ≠ variant2.sessionStoreLib ∧
    variant1.storeDbName ≠ variant2.storeDbName ∧
    variant1.useNewUrlOpt ≠ variant2.useNewUrlOpt ∧
    variant1.useUnifiedTopologyOpt ≠ variant2.useUnifiedTopologyOpt ∧
    variant1.cookieMaxAgeMs ≠ variant2.cookieMaxAgeMs ∧
    variant1.defaultPort ≠ variant2.defaultPort := by
  decide

/-- The pre-route context of a GET / carrying dbgSession against c4World,
as produced by the stages before route dispatch. -/
def c10Ctx : Ctx :=
  { req := c4Request, session := some dbgSession, user := none, file := none,
    localsIsAuthenticated := some true,
    localsCsrfToken := some (csrfTokenFor "sec"),
    filesWritten := [],
    trace := [.helmet, .compression, .accessLog, .bodyParsing, .multerUpload,
      .staticPublic, .staticImages, .sessionMw, .csrfMw, .flashMw, .localsMw, .userMw] }

/-- C10: whenever a request reaches the route layer (the pre-route stages
left it flowing normally), the locals middleware has set
res.locals.isAuthenticated — it equals true exactly when the session is
present with isLoggedIn true, and false in every other case — and has set
res.locals.csrfToken to the token derived from the session secret; and
the route mounts come right after these pre-route stages in the
registered stack. -/
theorem locals_invariant_before_routes (w : World) (r : Request) (c : Ctx)
    (h : runPrefix w r = Flow.normal c) :
    (∃ s, c.session = some s ∧
      c.localsIsAuthenticated = some (jsOrFalse s.isLoggedIn) ∧
      c.localsCsrfToken = some (csrfTokenFor s.csrfSecret)) ∧
    (c.localsIsAuthenticated = some true ↔
      ∃ s, c.session = some s ∧ s.isLoggedIn = some true) ∧
    appStack = stagesBeforeRoutes ++
      [Stage.adminRouter, Stage.shopRouter, Stage.authRouter,
       Stage.notFound404, Stage.errorHandler, Stage.debugSessionRoute] := by
  have hd : runPrefix w r =
      step w (stagesThroughLocals.foldl (step w) (Flow.normal (initCtx r))) Stage.userMw := rfl
  rw [hd] at h
  have main : ∃ s, c.session = some s ∧
      c.localsIsAuthenticated = some (jsOrFalse s.isLoggedIn) ∧
      c.localsCsrfToken = some (csrfTokenFor s.csrfSecret) := by
    rcases hL : stagesThroughLocals.foldl (step w) (Flow.normal (initCtx r))
      with cL | ⟨e, cL⟩ | ⟨r', cL⟩ <;> rw [hL] at h
    · obtain ⟨hs, ha, ht⟩ := throughLocals_normal w r cL hL
      simp only [step, runStage] at h
      rcases hm : userMiddleware w.findUser (mark Stage.userMw cL)
        with c'' | ⟨e, c''⟩ | ⟨r'', c''⟩ <;> simp only [hm] at h
      · obtain ⟨ps, pa, pt⟩ := userMiddleware_next_preserves _ _ _ hm
        injection h with h
        subst h
        refine ⟨installedSession w r, ?_, ?_, ?_⟩
        · rw [ps]; simpa [mark] using hs
        · rw [pa]; simpa [mark] using ha
        · rw [pt]; simpa [mark] using ht
      · cases h
      · exact absurd hm (fun hh => userMiddleware_no_send _ _ _ _ hh)
    · simp [step] at h
    · simp [step] at h
  refine ⟨main, ?_, rfl⟩
  obtain ⟨s, hs, ha, ht⟩ := main
  constructor
  · intro htrue
    rw [ha] at htrue
    injection htrue with htrue
    exact ⟨s, hs, (jsOrFalse_eq_true _).mp htrue⟩
  · rintro ⟨s', hs', hl⟩
    rw [hs] at hs'
    injection hs' with hs'
    subst hs'
    rw [ha, (jsOrFalse_eq_true _).mpr hl]

/-- C10 witness: the invariant at a concrete logged-in GET / request. -/
theorem locals_invariant_before_routes_witness :
    runPrefix c4World c4Request = Flow.normal c10Ctx ∧
    c10Ctx.localsIsAuthenticated = some true ∧
    c10Ctx.localsCsrfToken = some (csrfTokenFor "sec") := by
  obtain ⟨⟨s, hs, ha, ht⟩, hiff, hsplit⟩ :=
    locals_invariant_before_routes c4World c4Request c10Ctx rfl
  exact ⟨rfl, hiff.mpr ⟨dbgSession, rfl, rfl⟩, rfl⟩

end Opc
